import Mathlib

/-!
Verification of the recurring quote/billing generation engine of the
condominium backend (quote/services.py, quote/models.py, config/enums.py,
house/models.py), via a shallow embedding in Lean 4.

Modelling conventions:
* The persistent quote store (the Quote table) is a list of Quote records;
  Django queryset filters become List.filter, queryset.update becomes a map,
  and objects.create becomes clean-then-insert.
* Monetary Decimal(12,2) values are modelled as integers (an amount in
  cents); the engine only compares them with zero and sums them.
* Python date values are triples (year, month, day) ordered
  lexicographically; datetime values are truncated to their date component,
  which is all the source ever compares.
* Python exceptions (ValidationError, TypeError, IndexError,
  IllegalMonthError, IntegrityError) become the error branch of
  Except String; `transaction.atomic` is realised by discarding the
  intermediate store when a sub-operation errors.
* The ambient clock (date.today(), timezone.now()) is passed explicitly as
  a parameter, as the specification itself does for sweep_overdue(today).
-/

/-- Calendar date, mirroring Python datetime.date. -/
structure Date where
  year : Nat
  month : Nat
  day : Nat
deriving DecidableEq, Repr

/-- Strict lexicographic order on dates, mirroring Python date comparison. -/
def dateLt (a b : Date) : Bool :=
  a.year < b.year ∨
    (a.year = b.year ∧ (a.month < b.month ∨ (a.month = b.month ∧ a.day < b.day)))

/-- Gregorian leap-year rule, as used by Python calendar.monthrange. -/
def isLeap (y : Nat) : Bool :=
  y % 4 = 0 ∧ (y % 100 ≠ 0 ∨ y % 400 = 0)

/-- Number of days of month m of year y: the second component of Python
calendar.monthrange(y, m), defined for m in 1..12. -/
def daysInMonth (y m : Nat) : Nat :=
  if m = 2 then (if isLeap y then 29 else 28)
  else if m = 4 ∨ m = 6 ∨ m = 9 ∨ m = 11 then 30
  else 31

/-- The QuoteStatus enum of config/enums.py. The source member PARTIAL
(value "partial") is the fifth member; its Lean constructor is named
parcial, after its Spanish label in the source, because the source member
name collides with a Lean keyword. -/
inductive QuoteStatus where
  | pending
  | paid
  | overdue
  | cancelled
  | parcial
deriving DecidableEq, Repr

/-- The value attribute of each QuoteStatus member, from config/enums.py. -/
def QuoteStatus.value : QuoteStatus → String
  | .pending => "pending"
  | .paid => "paid"
  | .overdue => "overdue"
  | .cancelled => "cancelled"
  | .parcial => "partial"

/-- All members of QuoteStatus, in source declaration order. -/
def QuoteStatus.all : List QuoteStatus :=
  [.pending, .paid, .overdue, .cancelled, .parcial]

/-- QuoteStatus.values() of config/enums.py: the value of every member. -/
def QuoteStatus.values : List String :=
  QuoteStatus.all.map QuoteStatus.value

/-- Modelled from the spec: the HouseUserType enum is imported from
config.enums throughout the source but its definition is absent from the
sources provided. The spec (sections 3 and 4.1 and the glossary) gives two
occupant kinds, OWNER (annual cadence) and TENANT/resident (monthly
cadence), matching the code usage HouseUserType.OWNER.value and
HouseUserType.RESIDENT.value. -/
def HouseUserType.OWNER : String := "owner"

/-- Modelled from the spec: the second member of the absent HouseUserType
enum, the tenant-style resident kind (monthly cadence). -/
def HouseUserType.RESIDENT : String := "resident"

/-- The House (Unit) entity of house/models.py, restricted to the fields
the quote engine reads: code, price_base, is_active (the soft-delete flag
of the shared base model). -/
structure House where
  code : String
  price_base : Int
  is_active : Bool
deriving DecidableEq, Repr

/-- The User entity, restricted to the name fields the engine reads. -/
structure User where
  first_name : String
  last_name : String
deriving DecidableEq, Repr

/-- The HouseUser (BillableRelationship) entity of house/models.py,
restricted to the fields the quote engine reads. Fields is_principal,
price_responsibility and the start and end dates are never read by
quote/services.py and are omitted. -/
structure HouseUser where
  id : Nat
  house : House
  user : User
  type_house : String
  is_active : Bool
deriving DecidableEq, Repr

/-- The Quote entity of quote/models.py. Foreign keys are modelled by
identifiers (payment_method by the method identifier, nullable in the
column). The JSON payload payment_data and the payment_gateway key are
never touched by the engine operations under verification and are omitted.
is_active and created_at come from the shared base model (the soft-delete
flag and creation stamp that quote/services.py filters on). -/
structure Quote where
  house_user_id : Nat
  payment_method : Option Nat
  amount : Int
  description : String
  due_date : Date
  paid_date : Option Date
  payment_reference : String
  status : String
  period_month : Option Nat
  period_year : Nat
  is_automatic : Bool
  is_active : Bool
  created_at : Option Date
deriving DecidableEq, Repr

/-- Validation of the period fields, the tail of Quote.clean
(quote/models.py lines 211-220). The source compares
self.period_month < 1 unconditionally, so a None period_month raises a
TypeError in Python; that exception is modelled as an error value. -/
def cleanPeriod (q : Quote) : Except String Quote :=
  match q.period_month with
  | none => .error "TypeError: < not supported between instances of NoneType and int"
  | some m =>
    if m < 1 ∨ m > 12 then .error "El mes debe estar entre 1 y 12."
    else if q.period_year < 2000 ∨ q.period_year > 2100 then
      .error "El año debe estar en un rango válido."
    else .ok q

/-- Quote.clean of quote/models.py (lines 178-220), in source order:
positive amount; paid quotes need a payment method and get a default
paid_date; unpaid quotes must not carry a paid_date; the paid_date may not
precede created_at; then the period validation. The only mutation clean
performs is defaulting paid_date to the current time. -/
def clean (q : Quote) (now : Date) : Except String Quote :=
  if q.amount ≤ 0 then .error "El monto debe ser mayor a cero."
  else if q.status = QuoteStatus.paid.value ∧ q.payment_method = none then
    .error "Se requiere un método de pago para cuotas pagadas."
  else
    let q1 := if q.status = QuoteStatus.paid.value ∧ q.paid_date = none then
      { q with paid_date := some now } else q
    if q1.status ≠ QuoteStatus.paid.value ∧ q1.paid_date ≠ none then
      .error "Una cuota no pagada no puede tener fecha de pago."
    else
      match q1.paid_date, q1.created_at with
      | some pd, some ca =>
        if dateLt pd ca then
          .error "La fecha de pago no puede ser anterior a la fecha de creación."
        else cleanPeriod q1
      | _, _ => cleanPeriod q1

/-- Insertion into the quote table. The table's unique_together constraint
on (house_user, period_month, period_year) (quote/models.py Meta) rejects a
duplicate key at insert time; SQL unique constraints treat NULL as distinct,
so the constraint only fires for a non-null period_month. The base model
stamps created_at on insert. -/
def dbInsert (q : Quote) (now : Date) (db : List Quote) :
    Except String (Quote × List Quote) :=
  if q.period_month ≠ none ∧ ∃ r ∈ db, r.house_user_id = q.house_user_id ∧
      r.period_month = q.period_month ∧ r.period_year = q.period_year then
    .error "IntegrityError: duplicate (house_user, period_month, period_year)"
  else
    let q2 := { q with created_at := some now }
    .ok (q2, db ++ [q2])

/-- Quote.objects.create: Quote.save runs clean and then inserts
(quote/models.py lines 222-224). -/
def objectsCreate (q : Quote) (now : Date) (db : List Quote) :
    Except String (Quote × List Quote) :=
  match clean q now with
  | .error e => .error e
  | .ok q1 => dbInsert q1 now db

/-- Quote.mark_as_paid of quote/models.py (lines 226-237): raise if the
quote is already paid, otherwise stamp status, method, reference and
paid_date (defaulting to now) and save, which re-runs clean. The result is
the persisted quote value. -/
def mark_as_paid (q : Quote) (payment_method : Option Nat) (reference : String)
    (paid_date : Option Date) (now : Date) : Except String Quote :=
  if q.status = QuoteStatus.paid.value then
    .error "Esta cuota ya está pagada."
  else
    clean { q with
      status := QuoteStatus.paid.value
      payment_method := payment_method
      payment_reference := reference
      paid_date := some (paid_date.getD now) } now

/-- The existence filter of _create_annual_quote (quote/services.py lines
89-93): same relationship, same period year, active — the period month is
not part of the filter. -/
def annualKey (huId year : Nat) (q : Quote) : Bool :=
  q.house_user_id == huId && q.period_year == year && q.is_active

/-- The existence filter of _create_monthly_quotes (quote/services.py lines
138-143): same relationship, year and month, active. -/
def monthlyKey (huId year m : Nat) (q : Quote) : Bool :=
  q.house_user_id == huId && q.period_year == year &&
    q.period_month == some m && q.is_active

/-- Spanish month names of _create_monthly_quotes, index 1 to 12 with a
placeholder at index 0. -/
def month_names : List String :=
  ["", "Enero", "Febrero", "Marzo", "Abril", "Mayo", "Junio",
   "Julio", "Agosto", "Septiembre", "Octubre", "Noviembre", "Diciembre"]

/-- Description of a monthly quote (quote/services.py lines 148-152): a
non-empty template has its month and year placeholders substituted,
otherwise the default Spanish description is built. -/
def monthlyDescription (dt : Option String) (hu : HouseUser) (year m : Nat) :
    String :=
  let dflt := "Renta " ++ month_names.getD m "" ++ " " ++ Nat.repr year ++
    " - Vivienda " ++ hu.house.code
  match dt with
  | some t =>
    if t = "" then dflt
    else (t.replace "\x7bmonth\x7d" (month_names.getD m "")).replace
      "\x7byear\x7d" (Nat.repr year)
  | none => dflt

/-- The Quote record passed to objects.create by _create_monthly_quotes for
one month: pending status, the month's true last calendar day as due date,
the automatic flag and active flag at their column defaults. -/
def monthlyCandidate (hu : HouseUser) (pm : Option Nat) (year : Nat)
    (amount : Int) (dt : Option String) (m : Nat) : Quote :=
  { house_user_id := hu.id
    payment_method := pm
    amount := amount
    description := monthlyDescription dt hu year m
    due_date := { year := year, month := m, day := daysInMonth year m }
    paid_date := none
    payment_reference := ""
    status := QuoteStatus.pending.value
    period_month := some m
    period_year := year
    is_automatic := true
    is_active := true
    created_at := none }

/-- The monthly quote as persisted when creation succeeds: the candidate
with its creation stamp. -/
def expectedMonthly (hu : HouseUser) (pm : Option Nat) (year : Nat)
    (amount : Int) (dt : Option String) (now : Date) (m : Nat) : Quote :=
  { monthlyCandidate hu pm year amount dt m with created_at := some now }

/-- The Quote record passed to objects.create by _create_annual_quote:
period_month is None (annual, no specific month). -/
def annualCandidate (hu : HouseUser) (pm : Option Nat) (year : Nat)
    (amount : Int) (dt : Option String) : Quote :=
  { house_user_id := hu.id
    payment_method := pm
    amount := amount
    description :=
      (match dt with
       | some t => if t = "" then
           "Cuota anual " ++ Nat.repr year ++ " - Vivienda " ++ hu.house.code
         else t
       | none =>
           "Cuota anual " ++ Nat.repr year ++ " - Vivienda " ++ hu.house.code)
    due_date := { year := year, month := 12, day := 31 }
    paid_date := none
    payment_reference := ""
    status := QuoteStatus.pending.value
    period_month := none
    period_year := year
    is_automatic := true
    is_active := true
    created_at := none }

/-- QuoteGenerationService._create_annual_quote (quote/services.py lines
78-116): return None when any active quote for the relationship and year
already exists (whatever its period month), otherwise create one pending
quote due on December 31. -/
def create_annual_quote (hu : HouseUser) (pm : Option Nat) (year : Nat)
    (amount : Int) (dt : Option String) (now : Date) (db : List Quote) :
    Except String (Option Quote × List Quote) :=
  if ((db.filter (annualKey hu.id year)).head?).isSome then
    .ok (none, db)
  else
    match objectsCreate (annualCandidate hu pm year amount dt) now db with
    | .error e => .error e
    | .ok (q, db2) => .ok (some q, db2)

/-- The month loop of QuoteGenerationService._create_monthly_quotes
(quote/services.py lines 136-169), one step per month: skip when an active
quote for the month exists; otherwise build the description (the Python
month_names indexing raises IndexError past December and
calendar.monthrange raises IllegalMonthError for month 0) and create the
pending quote due on the month's last day. -/
def create_monthly_go (hu : HouseUser) (pm : Option Nat) (year : Nat)
    (amount : Int) (dt : Option String) (now : Date) :
    List Nat → List Quote → List Quote → Except String (List Quote × List Quote)
  | [], acc, db => .ok (acc, db)
  | m :: ms, acc, db =>
    if ((db.filter (monthlyKey hu.id year m)).head?).isSome then
      create_monthly_go hu pm year amount dt now ms acc db
    else if 13 ≤ m then .error "IndexError: list index out of range"
    else if m = 0 then .error "IllegalMonthError: bad month number"
    else
      match objectsCreate (monthlyCandidate hu pm year amount dt m) now db with
      | .error e => .error e
      | .ok (q, db2) =>
        create_monthly_go hu pm year amount dt now ms (acc ++ [q]) db2

/-- Python range(start_month, end_month + 1). -/
def monthsRange (sm em : Nat) : List Nat :=
  List.range' sm (em + 1 - sm)

/-- Amount resolution of generate_quotes_for_house_user (quote/services.py
lines 45-46): the explicit base_amount if given, else the house price_base
with Python falsy-or fallback to zero. -/
def resolve_base_amount (ba : Option Int) (hu : HouseUser) : Int :=
  match ba with
  | some a => a
  | none => if hu.house.price_base = 0 then 0 else hu.house.price_base

/-- QuoteGenerationService.generate_quotes_for_house_user (quote/services.py
lines 20-76): fork on occupant kind — one annual quote for an owner, one
quote per month of the requested range for a resident, nothing for any
other kind. The body runs inside transaction.atomic, so an error discards
every intermediate insert and propagates. -/
def generate_quotes_for_house_user (hu : HouseUser) (pm : Option Nat)
    (year : Nat) (ba : Option Int) (sm em : Nat) (dt : Option String)
    (now : Date) (db : List Quote) : Except String (List Quote × List Quote) :=
  let amount := resolve_base_amount ba hu
  if hu.type_house = HouseUserType.OWNER then
    match create_annual_quote hu pm year amount dt now db with
    | .error e => .error e
    | .ok (some q, db2) => .ok ([q], db2)
    | .ok (none, db2) => .ok ([], db2)
  else if hu.type_house = HouseUserType.RESIDENT then
    create_monthly_go hu pm year amount dt now (monthsRange sm em) [] db
  else .ok ([], db)

/-- One entry of the errors list of the batch report (quote/services.py
lines 218-224). -/
structure GenError where
  house_user_id : Nat
  house_code : String
  user_name : String
  error : String
deriving DecidableEq, Repr

/-- The statistics report of generate_quotes_for_all_active_users
(quote/services.py lines 186-192). -/
structure GenStats where
  total_users : Nat
  quotes_created : Nat
  owners_processed : Nat
  residents_processed : Nat
  errors : List GenError
deriving DecidableEq, Repr

/-- The per-relationship loop of generate_quotes_for_all_active_users
(quote/services.py lines 201-224): each relationship is processed inside
try/except — on success the counters advance and the store keeps the new
quotes, on failure one error entry is appended and the store is left as it
was (the per-relationship transaction rolled back). -/
def batch_go (pm : Option Nat) (year sm em : Nat) (now : Date) :
    List HouseUser → GenStats → List Quote → GenStats × List Quote
  | [], stats, db => (stats, db)
  | hu :: rest, stats, db =>
    match generate_quotes_for_house_user hu pm year none sm em none now db with
    | .ok (qs, db2) =>
      let s1 := { stats with quotes_created := stats.quotes_created + qs.length }
      let s2 := if hu.type_house = HouseUserType.OWNER then
          { s1 with owners_processed := s1.owners_processed + 1 }
        else
          { s1 with residents_processed := s1.residents_processed + 1 }
      batch_go pm year sm em now rest s2 db2
    | .error e =>
      batch_go pm year sm em now rest
        { stats with errors := stats.errors ++
            [{ house_user_id := hu.id
               house_code := hu.house.code
               user_name := hu.user.first_name ++ " " ++ hu.user.last_name
               error := e }] } db

/-- The active-relationship filter of the batch (quote/services.py lines
194-197): active relationship with an active house. -/
def activeHouseUsers (hus : List HouseUser) : List HouseUser :=
  hus.filter (fun hu => hu.is_active && hu.house.is_active)

/-- QuoteGenerationService.generate_quotes_for_all_active_users
(quote/services.py lines 173-226). -/
def generate_quotes_for_all_active_users (pm : Option Nat) (year sm em : Nat)
    (now : Date) (hus : List HouseUser) (db : List Quote) :
    GenStats × List Quote :=
  let active := activeHouseUsers hus
  batch_go pm year sm em now active
    { total_users := active.length
      quotes_created := 0
      owners_processed := 0
      residents_processed := 0
      errors := [] } db

/-- The filter of update_overdue_quotes (quote/services.py lines 239-243):
active pending quotes whose due date lies strictly before today. -/
def overduePred (today : Date) (q : Quote) : Bool :=
  q.status == QuoteStatus.pending.value && dateLt q.due_date today && q.is_active

/-- QuoteGenerationService.update_overdue_quotes (quote/services.py lines
228-248): queryset.update sets exactly the status field of every matched
row and returns the number of matched rows. -/
def update_overdue_quotes (today : Date) (db : List Quote) :
    Nat × List Quote :=
  ((db.filter (overduePred today)).length,
   db.map (fun q => if overduePred today q then
     { q with status := QuoteStatus.overdue.value } else q))

/-- The summary dictionary of get_payment_summary (quote/services.py lines
275-291). The source builds no amount sum for the CANCELLED status; the
house_code and user_name keys are present only when a relationship filter
was given. The user_type display label is omitted: it comes from the
absent HouseUserType enum and no claim depends on it. -/
structure PaymentSummary where
  year : Nat
  total_quotes : Nat
  pending_quotes : Nat
  paid_quotes : Nat
  overdue_quotes : Nat
  cancelled_quotes : Nat
  total_amount : Int
  paid_amount : Int
  pending_amount : Int
  overdue_amount : Int
  house_code : Option String
  user_name : Option String
deriving DecidableEq, Repr

/-- The aggregate Sum over the amount column, with the source's or-default
to zero for an empty queryset. -/
def sumAmounts (qs : List Quote) : Int :=
  qs.foldl (fun acc q => acc + q.amount) 0

/-- The status sub-filter applied repeatedly by get_payment_summary. -/
def statusFilter (s : String) (qs : List Quote) : List Quote :=
  qs.filter (fun q => q.status == s)

/-- QuoteGenerationService.get_payment_summary (quote/services.py lines
250-293): a pure aggregation over the active quotes of the year, optionally
restricted to one relationship. The ambient current year default is passed
explicitly by the caller. -/
def get_payment_summary (house_user : Option HouseUser) (year : Nat)
    (db : List Quote) : PaymentSummary :=
  let qs0 := db.filter (fun q => q.period_year == year && q.is_active)
  let qs := match house_user with
    | some hu => qs0.filter (fun q => q.house_user_id == hu.id)
    | none => qs0
  { year := year
    total_quotes := qs.length
    pending_quotes := (statusFilter QuoteStatus.pending.value qs).length
    paid_quotes := (statusFilter QuoteStatus.paid.value qs).length
    overdue_quotes := (statusFilter QuoteStatus.overdue.value qs).length
    cancelled_quotes := (statusFilter QuoteStatus.cancelled.value qs).length
    total_amount := sumAmounts qs
    paid_amount := sumAmounts (statusFilter QuoteStatus.paid.value qs)
    pending_amount := sumAmounts (statusFilter QuoteStatus.pending.value qs)
    overdue_amount := sumAmounts (statusFilter QuoteStatus.overdue.value qs)
    house_code := house_user.map (fun hu => hu.house.code)
    user_name := house_user.map
      (fun hu => hu.user.first_name ++ " " ++ hu.user.last_name) }

/-! ### Specification-side definitions

Independent formulations of the aggregates and predicates the claims speak
about, written from the claim text rather than from the service code, to
compare against the embedded operations. -/

/-- The sweep condition as the claim words it: a pending quote, strictly
past due, not soft-deleted. -/
def overdueSpec (today : Date) (q : Quote) : Prop :=
  q.status = QuoteStatus.pending.value ∧ dateLt q.due_date today = true ∧
    q.is_active = true

instance (today : Date) (q : Quote) : Decidable (overdueSpec today q) := by
  unfold overdueSpec
  infer_instance

/-- Equality of every Quote field except status, for stating that the sweep
touches nothing but the status column. -/
def sameExceptStatus (a b : Quote) : Prop :=
  a.house_user_id = b.house_user_id ∧ a.payment_method = b.payment_method ∧
  a.amount = b.amount ∧ a.description = b.description ∧
  a.due_date = b.due_date ∧ a.paid_date = b.paid_date ∧
  a.payment_reference = b.payment_reference ∧
  a.period_month = b.period_month ∧ a.period_year = b.period_year ∧
  a.is_automatic = b.is_automatic ∧ a.is_active = b.is_active ∧
  a.created_at = b.created_at

/-- Manual per-status count over a quote set. -/
def manualStatusCount (s : String) (qs : List Quote) : Nat :=
  qs.countP (fun q => decide (q.status = s))

/-- Manual per-status amount sum over a quote set. -/
def manualStatusAmount (s : String) (qs : List Quote) : Int :=
  (qs.map (fun q => if q.status = s then q.amount else 0)).sum

/-- Manual total amount over a quote set. -/
def manualTotalAmount (qs : List Quote) : Int :=
  (qs.map (fun q => q.amount)).sum

/-- The quote set a year summary ranges over, as the claim words it: the
active quotes of the year, restricted to one relationship when given. -/
def yearScope (house_user : Option HouseUser) (year : Nat) (db : List Quote) :
    List Quote :=
  db.filter (fun q =>
    q.period_year == year && q.is_active &&
      (match house_user with
       | some hu => q.house_user_id == hu.id
       | none => true))

/-! ### Concrete fixtures used by witnesses and counterexamples -/

def nowEx : Date := { year := 2024, month := 1, day := 15 }

def houseEx : House := { code := "A-01", price_base := 100, is_active := true }

def userEx : User := { first_name := "Ana", last_name := "Diaz" }

def huC1 : HouseUser :=
  { id := 11, house := houseEx, user := userEx,
    type_house := HouseUserType.RESIDENT, is_active := true }

def huC1own : HouseUser :=
  { id := 12, house := houseEx, user := userEx,
    type_house := HouseUserType.OWNER, is_active := true }

/-- An active annual quote (null period month) already present in the store
for relationship 12 and year 2024. -/
def annualQuoteC1 : Quote :=
  { house_user_id := 12, payment_method := some 1, amount := 100,
    description := "Cuota anual 2024 - Vivienda A-01",
    due_date := { year := 2024, month := 12, day := 31 }, paid_date := none,
    payment_reference := "", status := QuoteStatus.pending.value,
    period_month := none, period_year := 2024, is_automatic := true,
    is_active := true, created_at := some nowEx }

def huC2 : HouseUser :=
  { id := 21, house := houseEx, user := userEx,
    type_house := HouseUserType.RESIDENT, is_active := true }

/-- A tenant relationship whose house has price_base 0 (the column default)
and no amount override: the resolved amount is 0. -/
def huC2zero : HouseUser :=
  { id := 22, house := { code := "B-02", price_base := 0, is_active := true },
    user := userEx, type_house := HouseUserType.RESIDENT, is_active := true }

def huC3 : HouseUser :=
  { id := 31, house := houseEx, user := userEx,
    type_house := HouseUserType.OWNER, is_active := true }

/-- A soft-deleted (is_active false) pending quote strictly past due. -/
def quoteC4 : Quote :=
  { house_user_id := 61, payment_method := some 1, amount := 50,
    description := "", due_date := { year := 2024, month := 1, day := 31 },
    paid_date := none, payment_reference := "",
    status := QuoteStatus.pending.value, period_month := some 1,
    period_year := 2024, is_automatic := true, is_active := false,
    created_at := some nowEx }

def todayC4 : Date := { year := 2025, month := 1, day := 1 }

/-- An active pending quote strictly past due, transitioned by the sweep. -/
def quoteC4active : Quote :=
  { house_user_id := 62, payment_method := some 1, amount := 50,
    description := "", due_date := { year := 2024, month := 1, day := 31 },
    paid_date := none, payment_reference := "",
    status := QuoteStatus.pending.value, period_month := some 1,
    period_year := 2024, is_automatic := true, is_active := true,
    created_at := some nowEx }

/-- An already-paid quote. -/
def paidQuoteC5 : Quote :=
  { house_user_id := 51, payment_method := some 1, amount := 100,
    description := "", due_date := { year := 2024, month := 1, day := 31 },
    paid_date := some nowEx, payment_reference := "first-payment",
    status := QuoteStatus.paid.value, period_month := some 1,
    period_year := 2024, is_automatic := true, is_active := true,
    created_at := some { year := 2024, month := 1, day := 1 } }

def huC6a : HouseUser :=
  { id := 71, house := houseEx, user := userEx,
    type_house := HouseUserType.RESIDENT, is_active := true }

/-- The failing relationship of the batch scenario: owner cadence, whose
annual creation raises (see C3). -/
def huC6b : HouseUser :=
  { id := 72, house := houseEx,
    user := { first_name := "Luis", last_name := "Perez" },
    type_house := HouseUserType.OWNER, is_active := true }

def huC6c : HouseUser :=
  { id := 73, house := houseEx, user := userEx,
    type_house := HouseUserType.RESIDENT, is_active := true }

def qC7cancelA : Quote :=
  { house_user_id := 81, payment_method := some 1, amount := 5,
    description := "", due_date := { year := 2024, month := 1, day := 31 },
    paid_date := none, payment_reference := "",
    status := QuoteStatus.cancelled.value, period_month := some 1,
    period_year := 2024, is_automatic := true, is_active := true,
    created_at := none }

def qC7partA : Quote :=
  { house_user_id := 81, payment_method := some 1, amount := 7,
    description := "", due_date := { year := 2024, month := 2, day := 29 },
    paid_date := none, payment_reference := "",
    status := QuoteStatus.parcial.value, period_month := some 2,
    period_year := 2024, is_automatic := true, is_active := true,
    created_at := none }

def dbC7a : List Quote := [qC7cancelA, qC7partA]

def dbC7b : List Quote :=
  [{ qC7cancelA with amount := 7 }, { qC7partA with amount := 5 }]

/-- A pending quote with valid fields, to be marked paid. -/
def pendingQuoteC8 : Quote :=
  { house_user_id := 95, payment_method := some 1, amount := 10,
    description := "", due_date := { year := 2024, month := 1, day := 31 },
    paid_date := none, payment_reference := "",
    status := QuoteStatus.pending.value, period_month := some 1,
    period_year := 2024, is_automatic := true, is_active := true,
    created_at := some { year := 2024, month := 1, day := 1 } }

def huC8 : HouseUser :=
  { id := 96, house := houseEx, user := userEx,
    type_house := HouseUserType.RESIDENT, is_active := true }

def quoteC8sweep : Quote :=
  { house_user_id := 97, payment_method := some 1, amount := 10,
    description := "", due_date := { year := 2023, month := 12, day := 31 },
    paid_date := none, payment_reference := "",
    status := QuoteStatus.pending.value, period_month := some 12,
    period_year := 2023, is_automatic := true, is_active := true,
    created_at := none }

/-- The quote value persisted by marking pendingQuoteC8 paid. -/
def paidResultC8 : Quote :=
  { pendingQuoteC8 with
    status := QuoteStatus.paid.value
    payment_method := some 1
    payment_reference := "webhook-1"
    paid_date := some nowEx }

def huC9 : HouseUser :=
  { id := 91, house := { code := "Z-09", price_base := 0, is_active := true },
    user := userEx, type_house := HouseUserType.RESIDENT, is_active := true }

/-- A tenant relationship whose house has a negative price_base: Python
or-fallback keeps it (non-zero is truthy), so the resolved amount is
negative. -/
def huC9neg : HouseUser :=
  { id := 92, house := { code := "Z-10", price_base := -50, is_active := true },
    user := userEx, type_house := HouseUserType.RESIDENT, is_active := true }

def huC10 : HouseUser :=
  { id := 41, house := houseEx, user := userEx,
    type_house := HouseUserType.OWNER, is_active := true }

/-- An active monthly quote (non-null period month) of relationship 41 for
year 2024. -/
def monthlyQuoteC10 : Quote :=
  { house_user_id := 41, payment_method := some 1, amount := 100,
    description := "Renta Mayo 2024 - Vivienda A-01",
    due_date := { year := 2024, month := 5, day := 31 }, paid_date := none,
    payment_reference := "", status := QuoteStatus.pending.value,
    period_month := some 5, period_year := 2024, is_automatic := true,
    is_active := true, created_at := some nowEx }

/-! ### Helper lemmas about the store primitives -/

lemma filterHead_isSome_of_mem {p : Quote → Bool} {l : List Quote} {q : Quote}
    (hq : q ∈ l) (hpq : p q = true) :
    ((l.filter p).head?).isSome = true := by
  have hne : l.filter p ≠ [] := by
    intro hnil
    have := (List.filter_eq_nil_iff.mp hnil) q hq
    simp [hpq] at this
  simpa [List.head?_isSome] using hne

lemma filterHead_isSome_false {p : Quote → Bool} {l : List Quote}
    (h : ∀ q ∈ l, p q = false) :
    ((l.filter p).head?).isSome = false := by
  have hnil : l.filter p = [] := List.filter_eq_nil_iff.mpr (by
    intro q hq
    simp [h q hq])
  simp [hnil]

lemma filterHead_exists_of_isSome {p : Quote → Bool} {l : List Quote}
    (h : ((l.filter p).head?).isSome = true) :
    ∃ q ∈ l, p q = true := by
  have hne : l.filter p ≠ [] := by
    intro hnil
    simp [hnil] at h
  obtain ⟨q, hq⟩ := List.exists_mem_of_ne_nil _ hne
  exact ⟨q, (List.mem_filter.mp hq).1, (List.mem_filter.mp hq).2⟩

lemma cleanPeriod_ok_eq {q q2 : Quote} (h : cleanPeriod q = .ok q2) : q2 = q := by
  unfold cleanPeriod at h
  cases hpm : q.period_month with
  | none => simp [hpm] at h
  | some m =>
    simp only [hpm] at h
    split_ifs at h
    exact (Except.ok.injEq _ _ ▸ h.symm)

lemma clean_ok_eq {q q2 : Quote} {now : Date} (h : clean q now = .ok q2) :
    q2 = q ∨ q2 = { q with paid_date := some now } := by
  unfold clean at h
  by_cases h1 : q.amount ≤ 0
  · simp [h1] at h
  rw [if_neg h1] at h
  by_cases h2 : q.status = QuoteStatus.paid.value ∧ q.payment_method = none
  · simp [h2] at h
  rw [if_neg h2] at h
  dsimp only at h
  by_cases h3 : q.status = QuoteStatus.paid.value ∧ q.paid_date = none
  · rw [if_pos h3] at h
    rw [if_neg (by simp [h3.1])] at h
    split at h
    · split_ifs at h with hlt
      exact Or.inr (cleanPeriod_ok_eq h)
    · exact Or.inr (cleanPeriod_ok_eq h)
  · rw [if_neg h3] at h
    by_cases h4 : q.status ≠ QuoteStatus.paid.value ∧ q.paid_date ≠ none
    · rw [if_pos h4] at h
      exact absurd h (by simp)
    · rw [if_neg h4] at h
      split at h
      · split_ifs at h with hlt
        exact Or.inl (cleanPeriod_ok_eq h)
      · exact Or.inl (cleanPeriod_ok_eq h)


lemma clean_ok_status {q q2 : Quote} {now : Date} (h : clean q now = .ok q2) :
    q2.status = q.status := by
  rcases clean_ok_eq h with rfl | rfl <;> rfl

lemma cleanPeriod_valid {q : Quote} {m : Nat} (hpm : q.period_month = some m)
    (hm1 : 1 ≤ m) (hm2 : m ≤ 12)
    (hy1 : 2000 ≤ q.period_year) (hy2 : q.period_year ≤ 2100) :
    cleanPeriod q = .ok q := by
  unfold cleanPeriod
  split
  · simp_all
  · rename_i m2 heq
    rw [heq] at hpm
    obtain rfl : m2 = m := by injection hpm
    rw [if_neg (by omega), if_neg (by omega)]

lemma clean_pending_ok {q : Quote} {now : Date}
    (hs : q.status = QuoteStatus.pending.value)
    (hpd : q.paid_date = none)
    (ha : 0 < q.amount)
    (hm : ∃ m, q.period_month = some m ∧ 1 ≤ m ∧ m ≤ 12)
    (hy1 : 2000 ≤ q.period_year) (hy2 : q.period_year ≤ 2100) :
    clean q now = .ok q := by
  obtain ⟨m, hpm, hm1, hm2⟩ := hm
  have hsp : ¬ q.status = QuoteStatus.paid.value := by
    rw [hs]; simp [QuoteStatus.value]
  unfold clean
  rw [if_neg (by omega)]
  rw [if_neg (fun hc => hsp hc.1)]
  dsimp only
  rw [show (if q.status = QuoteStatus.paid.value ∧ q.paid_date = none then
      { q with paid_date := some now } else q) = q from if_neg (fun hc => hsp hc.1)]
  rw [if_neg (by simp [hpd])]
  rw [hpd]
  split
  · simp_all
  · exact cleanPeriod_valid hpm hm1 hm2 hy1 hy2

lemma objectsCreate_pending {c : Quote} {now : Date} {db : List Quote}
    (hclean : clean c now = .ok c)
    (hfresh : ¬ (c.period_month ≠ none ∧ ∃ r ∈ db,
      r.house_user_id = c.house_user_id ∧ r.period_month = c.period_month ∧
        r.period_year = c.period_year)) :
    objectsCreate c now db =
      .ok ({ c with created_at := some now },
           db ++ [{ c with created_at := some now }]) := by
  unfold objectsCreate dbInsert
  rw [hclean]
  dsimp only
  rw [if_neg hfresh]

lemma objectsCreate_ok {c q : Quote} {now : Date} {db db2 : List Quote}
    (h : objectsCreate c now db = .ok (q, db2)) :
    db2 = db ++ [q] ∧ q.status = c.status ∧ q.house_user_id = c.house_user_id ∧
      q.period_year = c.period_year ∧ q.period_month = c.period_month ∧
      q.is_active = c.is_active := by
  unfold objectsCreate at h
  cases hcl : clean c now with
  | error e => rw [hcl] at h; exact absurd h (by simp)
  | ok c1 =>
    rw [hcl] at h
    dsimp only at h
    unfold dbInsert at h
    split_ifs at h
    simp only [Except.ok.injEq, Prod.mk.injEq] at h
    obtain ⟨hq, hdb⟩ := h
    subst hq
    subst hdb
    rcases clean_ok_eq hcl with rfl | rfl
    · exact ⟨rfl, rfl, rfl, rfl, rfl, rfl⟩
    · exact ⟨rfl, rfl, rfl, rfl, rfl, rfl⟩

lemma cleanPeriod_not_ok_of_none {q : Quote} (hpm : q.period_month = none)
    (q2 : Quote) : cleanPeriod q ≠ .ok q2 := by
  intro h
  unfold cleanPeriod at h
  rw [hpm] at h
  exact absurd h (by simp)

lemma clean_not_ok_of_period_none {q : Quote} {now : Date}
    (hpm : q.period_month = none) (q2 : Quote) : clean q now ≠ .ok q2 := by
  intro h
  unfold clean at h
  by_cases h1 : q.amount ≤ 0
  · simp [h1] at h
  rw [if_neg h1] at h
  by_cases h2 : q.status = QuoteStatus.paid.value ∧ q.payment_method = none
  · simp [h2] at h
  rw [if_neg h2] at h
  dsimp only at h
  by_cases h3 : q.status = QuoteStatus.paid.value ∧ q.paid_date = none
  · rw [if_pos h3] at h
    rw [if_neg (by simp [h3.1])] at h
    split at h
    · split_ifs at h with hlt
      exact cleanPeriod_not_ok_of_none
        (show ({ q with paid_date := some now } : Quote).period_month = none from hpm) _ h
    · exact cleanPeriod_not_ok_of_none
        (show ({ q with paid_date := some now } : Quote).period_month = none from hpm) _ h
  · rw [if_neg h3] at h
    by_cases h4 : q.status ≠ QuoteStatus.paid.value ∧ q.paid_date ≠ none
    · rw [if_pos h4] at h
      exact absurd h (by simp)
    · rw [if_neg h4] at h
      split at h
      · split_ifs at h with hlt
        exact cleanPeriod_not_ok_of_none hpm _ h
      · exact cleanPeriod_not_ok_of_none hpm _ h

lemma objectsCreate_not_ok_of_period_none {q : Quote} {now : Date}
    {db : List Quote} (hpm : q.period_month = none) (pr : Quote × List Quote) :
    objectsCreate q now db ≠ .ok pr := by
  intro h
  unfold objectsCreate at h
  cases hcl : clean q now with
  | error e => rw [hcl] at h; exact absurd h (by simp)
  | ok q1 => exact clean_not_ok_of_period_none hpm q1 hcl

/-- A successful _create_annual_quote call is always the duplicate-skip
branch: the fresh-creation path cannot succeed, because the candidate has a
null period month and Quote.clean rejects it. -/
lemma create_annual_ok {hu : HouseUser} {pm : Option Nat} {year : Nat}
    {amount : Int} {dt : Option String} {now : Date} {db : List Quote}
    {oq : Option Quote} {db2 : List Quote}
    (h : create_annual_quote hu pm year amount dt now db = .ok (oq, db2)) :
    oq = none ∧ db2 = db ∧ ∃ q0 ∈ db, annualKey hu.id year q0 = true := by
  unfold create_annual_quote at h
  by_cases hex : ((db.filter (annualKey hu.id year)).head?).isSome = true
  · rw [if_pos hex] at h
    simp only [Except.ok.injEq, Prod.mk.injEq] at h
    exact ⟨h.1.symm, h.2.symm, filterHead_exists_of_isSome hex⟩
  · rw [if_neg hex] at h
    exfalso
    cases hoc : objectsCreate (annualCandidate hu pm year amount dt) now db with
    | error e => rw [hoc] at h; exact absurd h (by simp)
    | ok pr => exact objectsCreate_not_ok_of_period_none rfl pr hoc

/-- Successful runs of the month loop: the returned list extends the
accumulator by exactly the quotes appended to the store; every appended
quote is a pending, active quote of this relationship and year; and every
month of the remaining range ends covered by an active quote in the final
store. -/
lemma create_monthly_go_ok (hu : HouseUser) (pm : Option Nat) (year : Nat)
    (amount : Int) (dt : Option String) (now : Date) (ms : List Nat) :
    ∀ acc db qs db2,
      create_monthly_go hu pm year amount dt now ms acc db = .ok (qs, db2) →
      ∃ new, qs = acc ++ new ∧ db2 = db ++ new ∧
        (∀ q ∈ new, q.status = QuoteStatus.pending.value ∧
          q.house_user_id = hu.id ∧ q.period_year = year ∧ q.is_active = true) ∧
        (∀ m ∈ ms, ∃ q ∈ db2, monthlyKey hu.id year m q = true) := by
  induction ms with
  | nil =>
    intro acc db qs db2 h
    simp only [create_monthly_go, Except.ok.injEq, Prod.mk.injEq] at h
    exact ⟨[], by simp [h.1.symm], by simp [h.2.symm], by simp, by simp⟩
  | cons m ms ih =>
    intro acc db qs db2 h
    simp only [create_monthly_go] at h
    by_cases hex : ((db.filter (monthlyKey hu.id year m)).head?).isSome = true
    · rw [if_pos hex] at h
      obtain ⟨new, hqs, hdb, hstat, hcov⟩ := ih acc db qs db2 h
      refine ⟨new, hqs, hdb, hstat, ?_⟩
      intro m2 hm2
      rcases List.mem_cons.mp hm2 with rfl | hm2
      · obtain ⟨q0, hq0mem, hq0key⟩ := filterHead_exists_of_isSome hex
        exact ⟨q0, by rw [hdb]; exact List.mem_append_left _ hq0mem, hq0key⟩
      · exact hcov m2 hm2
    · rw [if_neg hex] at h
      split_ifs at h with h13 h0
      cases hoc : objectsCreate (monthlyCandidate hu pm year amount dt m) now db with
      | error e => rw [hoc] at h; exact absurd h (by simp)
      | ok pr =>
        obtain ⟨q, db3⟩ := pr
        rw [hoc] at h
        dsimp only at h
        obtain ⟨new2, hqs, hdb, hstat, hcov⟩ := ih (acc ++ [q]) db3 qs db2 h
        obtain ⟨hdb3, hqstat, hqhu, hqyear, hqpm, hqact⟩ := objectsCreate_ok hoc
        refine ⟨q :: new2, ?_, ?_, ?_, ?_⟩
        · rw [hqs, List.append_assoc]; rfl
        · rw [hdb, hdb3, List.append_assoc]; rfl
        · intro q2 hq2
          rcases List.mem_cons.mp hq2 with rfl | hq2
          · exact ⟨hqstat, hqhu, hqyear, hqact⟩
          · exact hstat q2 hq2
        · intro m2 hm2
          rcases List.mem_cons.mp hm2 with rfl | hm2
          · refine ⟨q, ?_, ?_⟩
            · rw [hdb]
              exact List.mem_append_left _
                (by rw [hdb3]; exact List.mem_append_right _ (by simp))
            · simp [monthlyKey, monthlyCandidate, hqhu, hqyear, hqpm, hqact]
          · exact hcov m2 hm2

/-- When every month of the range is already covered by an active quote,
the month loop creates nothing and leaves the store unchanged. -/
lemma create_monthly_go_covered (hu : HouseUser) (pm : Option Nat) (year : Nat)
    (amount : Int) (dt : Option String) (now : Date) (ms : List Nat) :
    ∀ acc db, (∀ m ∈ ms, ∃ q ∈ db, monthlyKey hu.id year m q = true) →
      create_monthly_go hu pm year amount dt now ms acc db = .ok (acc, db) := by
  induction ms with
  | nil => intro acc db _; simp only [create_monthly_go]
  | cons m ms ih =>
    intro acc db hcov
    simp only [create_monthly_go]
    obtain ⟨q0, hq0, hkey⟩ := hcov m (List.mem_cons_self m ms)
    rw [if_pos (filterHead_isSome_of_mem hq0 hkey)]
    exact ih acc db (fun m2 hm2 => hcov m2 (List.mem_cons_of_mem m hm2))

/-- The month loop on a store holding no quote of this relationship for any
month of the (duplicate-free, in-range) month list: with a positive amount
and a valid year, it creates exactly one pending quote per month, in order,
each due on the last calendar day of its month. -/
lemma create_monthly_go_fresh (hu : HouseUser) (pm : Option Nat) (year : Nat)
    (amount : Int) (dt : Option String) (now : Date) (ms : List Nat) :
    ∀ acc db,
      ms.Nodup →
      (∀ m ∈ ms, 1 ≤ m ∧ m ≤ 12) →
      (∀ q ∈ db, ∀ m ∈ ms,
        ¬(q.house_user_id = hu.id ∧ q.period_year = year ∧
          q.period_month = some m)) →
      0 < amount → 2000 ≤ year → year ≤ 2100 →
      create_monthly_go hu pm year amount dt now ms acc db =
        .ok (acc ++ ms.map (expectedMonthly hu pm year amount dt now),
             db ++ ms.map (expectedMonthly hu pm year amount dt now)) := by
  induction ms with
  | nil => intro acc db _ _ _ _ _ _; simp [create_monthly_go]
  | cons m ms ih =>
    intro acc db hnd hb hfresh ha hy1 hy2
    obtain ⟨hm1, hm2⟩ := hb m (List.mem_cons_self m ms)
    simp only [create_monthly_go]
    have hfalse : ∀ q ∈ db, monthlyKey hu.id year m q = false := by
      intro q hq
      have hnk := hfresh q hq m (List.mem_cons_self m ms)
      cases hmk : monthlyKey hu.id year m q
      · rfl
      · exfalso
        simp only [monthlyKey, Bool.and_eq_true, beq_iff_eq] at hmk
        exact hnk ⟨hmk.1.1.1, hmk.1.1.2, hmk.1.2⟩
    have hns := filterHead_isSome_false hfalse
    rw [hns]
    rw [if_neg Bool.false_ne_true]
    rw [if_neg (by omega)]
    rw [if_neg (by omega)]
    have hclean : clean (monthlyCandidate hu pm year amount dt m) now =
        .ok (monthlyCandidate hu pm year amount dt m) :=
      clean_pending_ok rfl rfl ha ⟨m, rfl, hm1, hm2⟩ hy1 hy2
    rw [objectsCreate_pending hclean (by
      rintro ⟨-, r, hr, hrhu, hrpm, hrpy⟩
      exact hfresh r hr m (List.mem_cons_self m ms) ⟨hrhu, hrpy, hrpm⟩)]
    dsimp only
    have hmne : m ∉ ms := (List.nodup_cons.mp hnd).1
    show create_monthly_go hu pm year amount dt now ms
        (acc ++ [expectedMonthly hu pm year amount dt now m])
        (db ++ [expectedMonthly hu pm year amount dt now m]) =
      .ok (acc ++ (m :: ms).map (expectedMonthly hu pm year amount dt now),
           db ++ (m :: ms).map (expectedMonthly hu pm year amount dt now))
    rw [ih (acc ++ [expectedMonthly hu pm year amount dt now m])
        (db ++ [expectedMonthly hu pm year amount dt now m])
        (List.nodup_cons.mp hnd).2
        (fun m2 hm2b => hb m2 (List.mem_cons_of_mem m hm2b))
        (by
          intro q hq m2 hm2b
          rcases List.mem_append.mp hq with hq2 | hq2
          · exact hfresh q hq2 m2 (List.mem_cons_of_mem m hm2b)
          · have hq3 : q = expectedMonthly hu pm year amount dt now m := by
              simpa using hq2
            subst hq3
            rintro ⟨-, -, hpm2⟩
            have : m = m2 := by
              simpa [expectedMonthly, monthlyCandidate] using hpm2
            exact hmne (this ▸ hm2b))
        ha hy1 hy2]
    simp [expectedMonthly, List.append_assoc]

/-- Any successful generate_quotes_for_house_user call appends exactly the
returned quotes to the store, and every returned quote is pending. -/
lemma generate_ok_spec {hu : HouseUser} {pm : Option Nat} {year : Nat}
    {ba : Option Int} {sm em : Nat} {dt : Option String} {now : Date}
    {db qs db2 : List Quote}
    (h : generate_quotes_for_house_user hu pm year ba sm em dt now db =
      .ok (qs, db2)) :
    db2 = db ++ qs ∧ ∀ q ∈ qs, q.status = QuoteStatus.pending.value := by
  unfold generate_quotes_for_house_user at h
  dsimp only at h
  by_cases hOwn : hu.type_house = HouseUserType.OWNER
  · rw [if_pos hOwn] at h
    cases hca : create_annual_quote hu pm year (resolve_base_amount ba hu) dt now db with
    | error e => rw [hca] at h; exact absurd h (by simp)
    | ok pr =>
      obtain ⟨oq, db3⟩ := pr
      obtain ⟨hoq, hdb3, -⟩ := create_annual_ok hca
      subst hoq
      subst hdb3
      rw [hca] at h
      dsimp only at h
      simp only [Except.ok.injEq, Prod.mk.injEq] at h
      obtain ⟨hqs, hdb⟩ := h
      subst hqs
      subst hdb
      exact ⟨by simp, by simp⟩
  · rw [if_neg hOwn] at h
    by_cases hRes : hu.type_house = HouseUserType.RESIDENT
    · rw [if_pos hRes] at h
      obtain ⟨new, hqs, hdb, hstat, -⟩ :=
        create_monthly_go_ok hu pm year (resolve_base_amount ba hu) dt now
          (monthsRange sm em) [] db qs db2 h
      refine ⟨by rw [hdb, hqs]; simp, ?_⟩
      intro q hq
      exact (hstat q (by simpa [hqs] using hq)).1
    · rw [if_neg hRes] at h
      simp only [Except.ok.injEq, Prod.mk.injEq] at h
      obtain ⟨hqs, hdb⟩ := h
      subst hqs
      subst hdb
      exact ⟨by simp, by simp⟩

lemma get_map_monthsRange (f : Nat → Quote) (sm em : Nat)
    (i : Fin ((monthsRange sm em).map f).length) :
    ((monthsRange sm em).map f).get i = f (sm + i.val) := by
  have hi : i.val < em + 1 - sm := by
    simpa [monthsRange, List.length_range'] using i.isLt
  simp [monthsRange, List.get_eq_getElem, List.getElem_map, List.getElem_range']

/-! ### Claim theorems -/

/-- C1 (amended). Generation is idempotent in the following sense: whenever
a call to generate_quotes_for_house_user succeeds, running it again with
identical arguments on the resulting store succeeds with an empty creation
list and leaves the store unchanged — so two identical calls never produce
two quotes for the same (relationship, year, month). Contrary to the claim
as stated, the second owner-cadence call does not return the existing
quote: _create_annual_quote returns None on the duplicate branch and the
caller appends nothing, so the second call also returns an empty list. -/
theorem claim_C1_generation_idempotent
    (hu : HouseUser) (pm : Option Nat) (year : Nat) (ba : Option Int)
    (sm em : Nat) (dt : Option String) (now : Date) (db qs db2 : List Quote)
    (h : generate_quotes_for_house_user hu pm year ba sm em dt now db =
      .ok (qs, db2)) :
    generate_quotes_for_house_user hu pm year ba sm em dt now db2 =
      .ok ([], db2) := by
  unfold generate_quotes_for_house_user at h ⊢
  dsimp only at h ⊢
  by_cases hOwn : hu.type_house = HouseUserType.OWNER
  · rw [if_pos hOwn] at h ⊢
    cases hca : create_annual_quote hu pm year (resolve_base_amount ba hu) dt now db with
    | error e => rw [hca] at h; exact absurd h (by simp)
    | ok pr =>
      obtain ⟨oq, db3⟩ := pr
      obtain ⟨hoq, hdb3, q0, hq0, hkey⟩ := create_annual_ok hca
      subst hoq
      subst hdb3
      rw [hca] at h
      dsimp only at h
      simp only [Except.ok.injEq, Prod.mk.injEq] at h
      obtain ⟨hqs, hdb⟩ := h
      subst hdb
      unfold create_annual_quote
      rw [if_pos (filterHead_isSome_of_mem hq0 hkey)]
  · rw [if_neg hOwn] at h ⊢
    by_cases hRes : hu.type_house = HouseUserType.RESIDENT
    · rw [if_pos hRes] at h ⊢
      obtain ⟨new, hqs, hdb, hstat, hcov⟩ :=
        create_monthly_go_ok hu pm year (resolve_base_amount ba hu) dt now
          (monthsRange sm em) [] db qs db2 h
      exact create_monthly_go_covered hu pm year (resolve_base_amount ba hu)
        dt now (monthsRange sm em) [] db2 hcov
    · rw [if_neg hRes] at h ⊢

/-- Witness for C1: a concrete second tenant-cadence call on the store
produced by a successful first call returns an empty creation list. -/
theorem claim_C1_generation_idempotent_witness :
    generate_quotes_for_house_user huC1 (some 1) 2024 (some 100) 3 3 none nowEx
        [expectedMonthly huC1 (some 1) 2024 100 none nowEx 3] =
      .ok ([], [expectedMonthly huC1 (some 1) 2024 100 none nowEx 3]) :=
  claim_C1_generation_idempotent huC1 (some 1) 2024 (some 100) 3 3 none nowEx
    [] [expectedMonthly huC1 (some 1) 2024 100 none nowEx 3]
    [expectedMonthly huC1 (some 1) 2024 100 none nowEx 3] (by rfl)

/-- Counterexample to C1 as stated: for an owner-cadence relationship whose
annual quote already exists in the store, the repeated call returns the
empty list, not the existing quote. -/
theorem claim_C1_counterexample :
    generate_quotes_for_house_user huC1own (some 1) 2024 (some 100) 1 12 none
        nowEx [annualQuoteC1] = .ok ([], [annualQuoteC1]) ∧
      ([] : List Quote) ≠ [annualQuoteC1] := by
  exact ⟨by rfl, by simp⟩

/-- C2 (amended). For a tenant-cadence relationship with no prior quotes,
a positive resolved amount and a year accepted by Quote.clean (2000-2100),
generation over an inclusive in-range month span creates exactly
end - start + 1 pending quotes, one per month in order, each due on the
true last calendar day of its month as computed by calendar.monthrange.
Contrary to the claim as stated, a non-positive resolved amount (for
example the price_base column default 0 with no override) makes Quote.clean
raise, so no quotes at all are created for such relationships. -/
theorem claim_C2_tenant_cadence
    (hu : HouseUser) (pm : Option Nat) (year : Nat) (ba : Option Int)
    (sm em : Nat) (now : Date) (db : List Quote)
    (hType : hu.type_house = HouseUserType.RESIDENT)
    (hFresh : ∀ q ∈ db, q.house_user_id ≠ hu.id)
    (hAmt : 0 < resolve_base_amount ba hu)
    (hy1 : 2000 ≤ year) (hy2 : year ≤ 2100)
    (hsm : 1 ≤ sm) (hse : sm ≤ em) (hem : em ≤ 12) :
    ∃ qs, generate_quotes_for_house_user hu pm year ba sm em none now db =
        .ok (qs, db ++ qs) ∧
      qs.length = em - sm + 1 ∧
      ∀ i : Fin qs.length,
        (qs.get i).period_month = some (sm + i.val) ∧
        (qs.get i).status = QuoteStatus.pending.value ∧
        (qs.get i).due_date =
          { year := year, month := sm + i.val,
            day := daysInMonth year (sm + i.val) } := by
  refine ⟨(monthsRange sm em).map
    (expectedMonthly hu pm year (resolve_base_amount ba hu) none now),
    ?_, ?_, ?_⟩
  · unfold generate_quotes_for_house_user
    dsimp only
    rw [if_neg (by rw [hType]; decide)]
    rw [if_pos hType]
    rw [create_monthly_go_fresh hu pm year (resolve_base_amount ba hu) none now
      (monthsRange sm em) [] db
      (by unfold monthsRange; exact List.nodup_range' sm (em + 1 - sm))
      (by
        intro m hm
        rw [monthsRange] at hm
        have := List.mem_range'_1.mp hm
        omega)
      (by
        intro q hq m hm
        rintro ⟨h1, -, -⟩
        exact hFresh q hq h1)
      hAmt hy1 hy2]
    simp
  · rw [List.length_map, monthsRange, List.length_range']
    omega
  · intro i
    rw [get_map_monthsRange]
    exact ⟨rfl, rfl, rfl⟩

/-- Witness for C2, covering the three scenarios named by the spec: months
3..6 of 2024 give four quotes (April due April 30), February 2024 is due on
the 29th, February 2023 on the 28th. -/
theorem claim_C2_tenant_cadence_witness :
    (∃ qs, generate_quotes_for_house_user huC2 (some 1) 2024 (some 100) 3 6
        none nowEx [] = .ok (qs, [] ++ qs) ∧
      qs.length = 6 - 3 + 1 ∧
      ∀ i : Fin qs.length,
        (qs.get i).period_month = some (3 + i.val) ∧
        (qs.get i).status = QuoteStatus.pending.value ∧
        (qs.get i).due_date =
          { year := 2024, month := 3 + i.val,
            day := daysInMonth 2024 (3 + i.val) }) ∧
    (∃ qs, generate_quotes_for_house_user huC2 (some 1) 2024 (some 100) 2 2
        none nowEx [] = .ok (qs, [] ++ qs) ∧
      qs.length = 2 - 2 + 1 ∧
      ∀ i : Fin qs.length,
        (qs.get i).period_month = some (2 + i.val) ∧
        (qs.get i).status = QuoteStatus.pending.value ∧
        (qs.get i).due_date =
          { year := 2024, month := 2 + i.val,
            day := daysInMonth 2024 (2 + i.val) }) ∧
    (∃ qs, generate_quotes_for_house_user huC2 (some 1) 2023 (some 100) 2 2
        none nowEx [] = .ok (qs, [] ++ qs) ∧
      qs.length = 2 - 2 + 1 ∧
      ∀ i : Fin qs.length,
        (qs.get i).period_month = some (2 + i.val) ∧
        (qs.get i).status = QuoteStatus.pending.value ∧
        (qs.get i).due_date =
          { year := 2023, month := 2 + i.val,
            day := daysInMonth 2023 (2 + i.val) }) ∧
    daysInMonth 2024 2 = 29 ∧ daysInMonth 2023 2 = 28 ∧
      daysInMonth 2024 4 = 30 :=
  ⟨claim_C2_tenant_cadence huC2 (some 1) 2024 (some 100) 3 6 nowEx []
      rfl (by simp) (by decide) (by omega) (by omega) (by omega) (by omega)
      (by omega),
   claim_C2_tenant_cadence huC2 (some 1) 2024 (some 100) 2 2 nowEx []
      rfl (by simp) (by decide) (by omega) (by omega) (by omega) (by omega)
      (by omega),
   claim_C2_tenant_cadence huC2 (some 1) 2023 (some 100) 2 2 nowEx []
      rfl (by simp) (by decide) (by omega) (by omega) (by omega) (by omega)
      (by omega),
   by decide, by decide, by decide⟩

/-- Counterexample to C2 as stated: a tenant relationship whose house has
price_base 0 and no override resolves to amount 0, and generation raises
the positive-amount validation error instead of creating 4 quotes. -/
theorem claim_C2_counterexample :
    generate_quotes_for_house_user huC2zero (some 1) 2024 none 3 6 none nowEx
        [] = .error "El monto debe ser mayor a cero." ∧
      ∀ qs db2, generate_quotes_for_house_user huC2zero (some 1) 2024 none 3 6
        none nowEx [] ≠ .ok (qs, db2) := by
  refine ⟨by rfl, ?_⟩
  intro qs db2 hcontra
  rw [show generate_quotes_for_house_user huC2zero (some 1) 2024 none 3 6 none
      nowEx [] = .error "El monto debe ser mayor a cero." from rfl] at hcontra
  exact Except.noConfusion hcontra

/-- C3 (code bug). The claim describes the intended owner cadence — one
pending quote with a null period month due December 31 — but the code
cannot create it: _create_annual_quote passes period_month None while the
Quote model declares the column non-nullable and Quote.clean compares
period_month with 1 unconditionally, which raises a TypeError on None, so
owner-cadence generation on a fresh store always raises and creates
nothing. This theorem evaluates the embedded code at the failing input. -/
theorem claim_C3_owner_generation_raises :
    generate_quotes_for_house_user huC3 (some 1) 2024 (some 100) 1 12 none
        nowEx [] =
      .error "TypeError: < not supported between instances of NoneType and int" := by
  rfl

/-- C5. mark_as_paid on an already-paid quote raises the already-paid
validation error before assigning anything: the error branch returns no
updated quote, so paid_date, payment_reference and every other field keep
their previous values (PAID is terminal). -/
theorem claim_C5_paid_is_terminal (q : Quote) (pm : Option Nat) (ref : String)
    (pd : Option Date) (now : Date)
    (h : q.status = QuoteStatus.paid.value) :
    mark_as_paid q pm ref pd now = .error "Esta cuota ya está pagada." := by
  unfold mark_as_paid
  rw [if_pos h]

/-- Witness for C5 at a concrete paid quote. -/
theorem claim_C5_paid_is_terminal_witness :
    mark_as_paid paidQuoteC5 (some 2) "second-reference" none nowEx =
      .error "Esta cuota ya está pagada." :=
  claim_C5_paid_is_terminal paidQuoteC5 (some 2) "second-reference" none nowEx
    rfl

/-- C10. The duplicate check before annual creation filters only on the
relationship, the year and the active flag — not the period month — so any
active quote for the relationship and year, monthly ones included, makes
owner-cadence generation return an empty list with the store unchanged. -/
theorem claim_C10_annual_duplicate_check_ignores_month
    (hu : HouseUser) (pm : Option Nat) (year : Nat) (ba : Option Int)
    (sm em : Nat) (dt : Option String) (now : Date) (db : List Quote)
    (q0 : Quote)
    (hType : hu.type_house = HouseUserType.OWNER)
    (hq0 : q0 ∈ db) (hk : annualKey hu.id year q0 = true) :
    generate_quotes_for_house_user hu pm year ba sm em dt now db =
      .ok ([], db) := by
  unfold generate_quotes_for_house_user
  dsimp only
  rw [if_pos hType]
  unfold create_annual_quote
  rw [if_pos (filterHead_isSome_of_mem hq0 hk)]

/-- Witness for C10: a monthly quote (period month 5) blocks the annual
creation for the same relationship and year. -/
theorem claim_C10_annual_duplicate_check_ignores_month_witness :
    generate_quotes_for_house_user huC10 (some 1) 2024 (some 100) 1 12 none
        nowEx [monthlyQuoteC10] = .ok ([], [monthlyQuoteC10]) :=
  claim_C10_annual_duplicate_check_ignores_month huC10 (some 1) 2024
    (some 100) 1 12 none nowEx [monthlyQuoteC10] monthlyQuoteC10 rfl
    (by simp) (by decide)

lemma overduePred_eq (today : Date) (q : Quote) :
    overduePred today q = decide (overdueSpec today q) := by
  unfold overduePred overdueSpec
  by_cases h1 : q.status = QuoteStatus.pending.value <;>
    by_cases h2 : dateLt q.due_date today = true <;>
      by_cases h3 : q.is_active = true <;>
        simp [h1, h2, h3]

/-- C4 (amended). The overdue sweep transitions exactly the active quotes
that are pending and strictly past due — soft-deleted (is_active false)
quotes are left alone, contrary to the claim's unrestricted "every quote" —
and returns their number; it touches no other field and no other quote; and
it is idempotent: re-running it the same day returns 0 and changes
nothing. -/
theorem claim_C4_sweep_overdue (today : Date) (db : List Quote) :
    (update_overdue_quotes today db).1 =
        db.countP (fun q => decide (overdueSpec today q)) ∧
    (update_overdue_quotes today db).2.length = db.length ∧
    (∀ i : Fin db.length,
      ∀ h2 : i.val < (update_overdue_quotes today db).2.length,
      sameExceptStatus (db.get i)
          ((update_overdue_quotes today db).2.get ⟨i.val, h2⟩) ∧
        ((update_overdue_quotes today db).2.get ⟨i.val, h2⟩).status =
          (if overdueSpec today (db.get i) then QuoteStatus.overdue.value
           else (db.get i).status)) ∧
    update_overdue_quotes today ((update_overdue_quotes today db).2) =
      (0, (update_overdue_quotes today db).2) := by
  refine ⟨?_, ?_, ?_, ?_⟩
  · show (db.filter (overduePred today)).length = _
    rw [List.countP_eq_length_filter]
    congr 1
    exact List.filter_congr (fun q _ => overduePred_eq today q)
  · show (db.map _).length = db.length
    simp
  · intro i h2
    have hget : ((update_overdue_quotes today db).2).get ⟨i.val, h2⟩ =
        (fun q => if overduePred today q then
          { q with status := QuoteStatus.overdue.value } else q) (db.get i) := by
      show (db.map _).get ⟨i.val, _⟩ = _
      simp [List.get_eq_getElem, List.getElem_map]
    rw [hget]
    dsimp only
    by_cases hp : overdueSpec today (db.get i)
    · rw [if_pos (by rw [overduePred_eq]; exact decide_eq_true hp)]
      rw [if_pos hp]
      exact ⟨⟨rfl, rfl, rfl, rfl, rfl, rfl, rfl, rfl, rfl, rfl, rfl, rfl⟩, rfl⟩
    · rw [if_neg (by rw [overduePred_eq]; simp only [decide_eq_true_eq]; exact hp)]
      rw [if_neg hp]
      exact ⟨⟨rfl, rfl, rfl, rfl, rfl, rfl, rfl, rfl, rfl, rfl, rfl, rfl⟩, rfl⟩
  · set db2 := (update_overdue_quotes today db).2 with hdb2
    have hnone : ∀ q ∈ db2, overduePred today q = false := by
      intro q hq
      rw [hdb2] at hq
      obtain ⟨q0, hq0, rfl⟩ := List.mem_map.mp hq
      by_cases hp : overduePred today q0 = true
      · rw [if_pos hp]
        unfold overduePred
        have hov : (QuoteStatus.overdue.value == QuoteStatus.pending.value) =
            false := by decide
        simp [hov]
      · rw [if_neg hp]
        cases hb : overduePred today q0
        · rfl
        · exact absurd hb hp
    have hfil : db2.filter (overduePred today) = [] :=
      List.filter_eq_nil_iff.mpr (by intro a ha; simp [hnone a ha])
    have hmap : db2.map (fun q => if overduePred today q then
        { q with status := QuoteStatus.overdue.value } else q) = db2 := by
      have hid : ∀ q ∈ db2, (fun q => if overduePred today q then
          { q with status := QuoteStatus.overdue.value } else q) q = id q := by
        intro q hq
        simp [hnone q hq]
      rw [List.map_congr_left hid, List.map_id]
    show ((db2.filter (overduePred today)).length, db2.map _) = (0, db2)
    rw [hfil, hmap]
    rfl

/-- Witness for C4 at a one-quote store holding an active pending quote
past due. -/
theorem claim_C4_sweep_overdue_witness :
    (update_overdue_quotes todayC4 [quoteC4active]).1 =
        ([quoteC4active] : List Quote).countP
          (fun q => decide (overdueSpec todayC4 q)) ∧
    (update_overdue_quotes todayC4 [quoteC4active]).2.length =
      ([quoteC4active] : List Quote).length ∧
    (∀ i : Fin ([quoteC4active] : List Quote).length,
      ∀ h2 : i.val < (update_overdue_quotes todayC4 [quoteC4active]).2.length,
      sameExceptStatus (([quoteC4active] : List Quote).get i)
          ((update_overdue_quotes todayC4 [quoteC4active]).2.get ⟨i.val, h2⟩) ∧
        ((update_overdue_quotes todayC4 [quoteC4active]).2.get
            ⟨i.val, h2⟩).status =
          (if overdueSpec todayC4 (([quoteC4active] : List Quote).get i) then
            QuoteStatus.overdue.value
           else (([quoteC4active] : List Quote).get i).status)) ∧
    update_overdue_quotes todayC4
        ((update_overdue_quotes todayC4 [quoteC4active]).2) =
      (0, (update_overdue_quotes todayC4 [quoteC4active]).2) :=
  claim_C4_sweep_overdue todayC4 [quoteC4active]

/-- Counterexample to C4 as stated: a pending quote strictly past due that
is soft-deleted (is_active false) is not transitioned and not counted; the
claim's unrestricted "every quote with status PENDING and due_date before
today" fails on it. -/
theorem claim_C4_counterexample :
    update_overdue_quotes todayC4 [quoteC4] = (0, [quoteC4]) ∧
    quoteC4.status = QuoteStatus.pending.value ∧
    dateLt quoteC4.due_date todayC4 = true := by
  exact ⟨by rfl, rfl, by rfl⟩

/-- Invariant of the batch loop: total_users is never touched; every
relationship of the remaining list contributes exactly one success counter
tick or one error entry; every error entry carries the failing
relationship's identifier, house code, user name and the raised message;
and the store only ever grows by the pending quotes of the successful
relationships. -/
lemma batch_go_spec (pm : Option Nat) (year sm em : Nat) (now : Date)
    (rest : List HouseUser) :
    ∀ stats db,
      (batch_go pm year sm em now rest stats db).1.total_users =
          stats.total_users ∧
      (batch_go pm year sm em now rest stats db).1.errors.length +
          (batch_go pm year sm em now rest stats db).1.owners_processed +
          (batch_go pm year sm em now rest stats db).1.residents_processed =
        stats.errors.length + stats.owners_processed +
          stats.residents_processed + rest.length ∧
      (∀ e ∈ (batch_go pm year sm em now rest stats db).1.errors,
        e ∈ stats.errors ∨ ∃ hu ∈ rest,
          e.house_user_id = hu.id ∧ e.house_code = hu.house.code ∧
          e.user_name = hu.user.first_name ++ " " ++ hu.user.last_name ∧
          ∃ dbMid, generate_quotes_for_house_user hu pm year none sm em none
            now dbMid = .error e.error) ∧
      (∃ newQs, (batch_go pm year sm em now rest stats db).2 = db ++ newQs ∧
        (batch_go pm year sm em now rest stats db).1.quotes_created =
          stats.quotes_created + newQs.length ∧
        ∀ q ∈ newQs, q.status = QuoteStatus.pending.value) := by
  induction rest with
  | nil =>
    intro stats db
    refine ⟨rfl, by simp [batch_go], fun e he => Or.inl he,
      ⟨[], by simp [batch_go], by simp [batch_go], by simp⟩⟩
  | cons hu rest ih =>
    intro stats db
    simp only [batch_go]
    cases hgen : generate_quotes_for_house_user hu pm year none sm em none now db with
    | ok pr =>
      obtain ⟨qs, db2⟩ := pr
      obtain ⟨hdb2, hpend⟩ := generate_ok_spec hgen
      dsimp only
      by_cases hOwn : hu.type_house = HouseUserType.OWNER
      · rw [if_pos hOwn]
        try dsimp only
        obtain ⟨htu, hcnt, herr, newQs, hnew, hqc, hnewp⟩ :=
          ih { total_users := stats.total_users,
               quotes_created := stats.quotes_created + qs.length,
               owners_processed := stats.owners_processed + 1,
               residents_processed := stats.residents_processed,
               errors := stats.errors } db2
        try dsimp only at htu hcnt hqc
        refine ⟨htu, by simp only [List.length_cons]; omega, ?_, ?_⟩
        · intro e he
          rcases herr e he with hin | ⟨hu2, hmem, h1, h2, h3, dbMid, hgen2⟩
          · exact Or.inl hin
          · exact Or.inr ⟨hu2, List.mem_cons_of_mem hu hmem, h1, h2, h3,
              dbMid, hgen2⟩
        · refine ⟨qs ++ newQs, ?_, ?_, ?_⟩
          · rw [hnew, hdb2, List.append_assoc]
          · rw [List.length_append]
            omega
          · intro q hq
            rcases List.mem_append.mp hq with hq2 | hq2
            · exact hpend q hq2
            · exact hnewp q hq2
      · rw [if_neg hOwn]
        try dsimp only
        obtain ⟨htu, hcnt, herr, newQs, hnew, hqc, hnewp⟩ :=
          ih { total_users := stats.total_users,
               quotes_created := stats.quotes_created + qs.length,
               owners_processed := stats.owners_processed,
               residents_processed := stats.residents_processed + 1,
               errors := stats.errors } db2
        try dsimp only at htu hcnt hqc
        refine ⟨htu, by simp only [List.length_cons]; omega, ?_, ?_⟩
        · intro e he
          rcases herr e he with hin | ⟨hu2, hmem, h1, h2, h3, dbMid, hgen2⟩
          · exact Or.inl hin
          · exact Or.inr ⟨hu2, List.mem_cons_of_mem hu hmem, h1, h2, h3,
              dbMid, hgen2⟩
        · refine ⟨qs ++ newQs, ?_, ?_, ?_⟩
          · rw [hnew, hdb2, List.append_assoc]
          · rw [List.length_append]
            omega
          · intro q hq
            rcases List.mem_append.mp hq with hq2 | hq2
            · exact hpend q hq2
            · exact hnewp q hq2
    | error e =>
      dsimp only
      obtain ⟨htu, hcnt, herr, newQs, hnew, hqc, hnewp⟩ :=
        ih { total_users := stats.total_users,
             quotes_created := stats.quotes_created,
             owners_processed := stats.owners_processed,
             residents_processed := stats.residents_processed,
             errors := stats.errors ++
               [{ house_user_id := hu.id, house_code := hu.house.code,
                  user_name := hu.user.first_name ++ " " ++ hu.user.last_name,
                  error := e }] } db
      have hlen : (stats.errors ++
          [({ house_user_id := hu.id, house_code := hu.house.code,
              user_name := hu.user.first_name ++ " " ++ hu.user.last_name,
              error := e } : GenError)]).length = stats.errors.length + 1 := by
        simp
      try dsimp only at htu hcnt hqc
      refine ⟨htu, by simp only [List.length_cons]; omega, ?_, ?_⟩
      · intro e2 he2
        rcases herr e2 he2 with hin | ⟨hu2, hmem, h1, h2, h3, dbMid, hgen2⟩
        · rcases List.mem_append.mp hin with hold | hnewe
          · exact Or.inl hold
          · have he2eq := List.mem_singleton.mp hnewe
            subst he2eq
            exact Or.inr ⟨hu, List.mem_cons_self hu rest, rfl, rfl, rfl,
              db, hgen⟩
        · exact Or.inr ⟨hu2, List.mem_cons_of_mem hu hmem, h1, h2, h3,
            dbMid, hgen2⟩
      · exact ⟨newQs, hnew, by omega, hnewp⟩

/-- C6. The batch isolates per-relationship failures: it is a total
function (the embedding wraps each per-relationship call in the source's
try/except, so no exception leaves the loop); every active relationship is
processed and contributes either a success tick or exactly one error entry
carrying its identifier, house code, user name and error message taken from
a raised generate call; and the quotes of the non-failing relationships are
still appended to the store. -/
theorem claim_C6_batch_partial_failure (pm : Option Nat) (year sm em : Nat)
    (now : Date) (hus : List HouseUser) (db : List Quote) :
    (generate_quotes_for_all_active_users pm year sm em now hus db).1.total_users
        = (activeHouseUsers hus).length ∧
    (generate_quotes_for_all_active_users pm year sm em now hus db).1.errors.length +
        (generate_quotes_for_all_active_users pm year sm em now hus db).1.owners_processed +
        (generate_quotes_for_all_active_users pm year sm em now hus db).1.residents_processed
      = (activeHouseUsers hus).length ∧
    (∀ e ∈ (generate_quotes_for_all_active_users pm year sm em now hus db).1.errors,
      ∃ hu ∈ activeHouseUsers hus,
        e.house_user_id = hu.id ∧ e.house_code = hu.house.code ∧
        e.user_name = hu.user.first_name ++ " " ++ hu.user.last_name ∧
        ∃ dbMid, generate_quotes_for_house_user hu pm year none sm em none now
          dbMid = .error e.error) ∧
    (∃ newQs,
      (generate_quotes_for_all_active_users pm year sm em now hus db).2 =
          db ++ newQs ∧
      (generate_quotes_for_all_active_users pm year sm em now hus db).1.quotes_created
          = newQs.length ∧
      ∀ q ∈ newQs, q.status = QuoteStatus.pending.value) := by
  obtain ⟨htu, hcnt, herr, newQs, hnew, hqc, hnewp⟩ :=
    batch_go_spec pm year sm em now (activeHouseUsers hus)
      { total_users := (activeHouseUsers hus).length, quotes_created := 0,
        owners_processed := 0, residents_processed := 0, errors := [] } db
  have hEq : generate_quotes_for_all_active_users pm year sm em now hus db =
      batch_go pm year sm em now (activeHouseUsers hus)
        { total_users := (activeHouseUsers hus).length, quotes_created := 0,
          owners_processed := 0, residents_processed := 0, errors := [] } db :=
    rfl
  rw [hEq]
  refine ⟨htu, ?_, ?_, ⟨newQs, hnew, ?_, hnewp⟩⟩
  · dsimp only at hcnt
    simp only [List.length_nil] at hcnt
    omega
  · intro e he
    rcases herr e he with hin | hgood
    · exact absurd hin (by simp)
    · exact hgood
  · dsimp only at hqc
    omega

/-- Witness for C6 at the spec's three-relationship scenario: two residents
around an owner whose processing raises (see C3), on an empty store. -/
theorem claim_C6_batch_partial_failure_witness :
    (generate_quotes_for_all_active_users (some 1) 2024 1 2 nowEx
        [huC6a, huC6b, huC6c] []).1.total_users
        = (activeHouseUsers [huC6a, huC6b, huC6c]).length ∧
    (generate_quotes_for_all_active_users (some 1) 2024 1 2 nowEx
        [huC6a, huC6b, huC6c] []).1.errors.length +
        (generate_quotes_for_all_active_users (some 1) 2024 1 2 nowEx
          [huC6a, huC6b, huC6c] []).1.owners_processed +
        (generate_quotes_for_all_active_users (some 1) 2024 1 2 nowEx
          [huC6a, huC6b, huC6c] []).1.residents_processed
      = (activeHouseUsers [huC6a, huC6b, huC6c]).length ∧
    (∀ e ∈ (generate_quotes_for_all_active_users (some 1) 2024 1 2 nowEx
        [huC6a, huC6b, huC6c] []).1.errors,
      ∃ hu ∈ activeHouseUsers [huC6a, huC6b, huC6c],
        e.house_user_id = hu.id ∧ e.house_code = hu.house.code ∧
        e.user_name = hu.user.first_name ++ " " ++ hu.user.last_name ∧
        ∃ dbMid, generate_quotes_for_house_user hu (some 1) 2024 none 1 2 none
          nowEx dbMid = .error e.error) ∧
    (∃ newQs,
      (generate_quotes_for_all_active_users (some 1) 2024 1 2 nowEx
          [huC6a, huC6b, huC6c] []).2 = [] ++ newQs ∧
      (generate_quotes_for_all_active_users (some 1) 2024 1 2 nowEx
          [huC6a, huC6b, huC6c] []).1.quotes_created = newQs.length ∧
      ∀ q ∈ newQs, q.status = QuoteStatus.pending.value) :=
  claim_C6_batch_partial_failure (some 1) 2024 1 2 nowEx
    [huC6a, huC6b, huC6c] []

lemma sumAmounts_go (l : List Quote) : ∀ init : Int,
    l.foldl (fun acc q => acc + q.amount) init =
      init + (l.map (fun q => q.amount)).sum := by
  induction l with
  | nil => intro init; simp
  | cons a l ih =>
    intro init
    rw [List.foldl_cons, ih, List.map_cons, List.sum_cons]
    ring

lemma sumAmounts_eq (l : List Quote) :
    sumAmounts l = (l.map (fun q => q.amount)).sum := by
  unfold sumAmounts
  rw [sumAmounts_go]
  simp

lemma statusCount_eq (s : String) (l : List Quote) :
    (statusFilter s l).length = manualStatusCount s l := by
  unfold statusFilter manualStatusCount
  rw [List.countP_eq_length_filter]
  congr 1

lemma mapsum_filter (s : String) (l : List Quote) :
    (l.map (fun q => if q.status = s then q.amount else 0)).sum =
      ((l.filter (fun q => q.status == s)).map (fun q => q.amount)).sum := by
  induction l with
  | nil => simp
  | cons a l ih =>
    by_cases h : a.status = s
    · simp [List.filter_cons, h, ih]
    · simp [List.filter_cons, h, ih]

lemma statusAmount_eq (s : String) (l : List Quote) :
    sumAmounts (statusFilter s l) = manualStatusAmount s l := by
  unfold statusFilter manualStatusAmount
  rw [sumAmounts_eq]
  exact (mapsum_filter s l).symm

lemma totalAmount_eq (l : List Quote) :
    sumAmounts l = manualTotalAmount l := by
  unfold manualTotalAmount
  exact sumAmounts_eq l

lemma scope_eq (house_user : Option HouseUser) (year : Nat) (db : List Quote) :
    (match house_user with
     | some hu => (db.filter (fun q => q.period_year == year && q.is_active)).filter
         (fun q => q.house_user_id == hu.id)
     | none => db.filter (fun q => q.period_year == year && q.is_active)) =
      yearScope house_user year db := by
  cases house_user with
  | none =>
    dsimp only
    unfold yearScope
    apply List.filter_congr
    intro q hq
    cases h1 : (q.period_year == year) <;> cases h2 : q.is_active <;>
      simp [h1, h2]
  | some hu =>
    dsimp only
    rw [List.filter_filter]
    unfold yearScope
    apply List.filter_congr
    intro q hq
    cases h1 : (q.period_year == year) <;> cases h2 : q.is_active <;>
      cases h3 : (q.house_user_id == hu.id) <;> simp [h1, h2, h3]

/-- C7 (amended). get_payment_summary is a pure aggregation over the active
quotes of the year (optionally one relationship's): the total count, the
per-status counts for PENDING, PAID, OVERDUE and CANCELLED, the total
amount, and the per-status amount sums for PAID, PENDING and OVERDUE all
equal the manually computed totals. Contrary to the claim as stated, the
summary carries no amount sum for the CANCELLED status — the source builds
pending, paid and overdue amounts only. -/
theorem claim_C7_summary_correctness (house_user : Option HouseUser)
    (year : Nat) (db : List Quote) :
    (get_payment_summary house_user year db).year = year ∧
    (get_payment_summary house_user year db).total_quotes =
      (yearScope house_user year db).length ∧
    (get_payment_summary house_user year db).pending_quotes =
      manualStatusCount QuoteStatus.pending.value (yearScope house_user year db) ∧
    (get_payment_summary house_user year db).paid_quotes =
      manualStatusCount QuoteStatus.paid.value (yearScope house_user year db) ∧
    (get_payment_summary house_user year db).overdue_quotes =
      manualStatusCount QuoteStatus.overdue.value (yearScope house_user year db) ∧
    (get_payment_summary house_user year db).cancelled_quotes =
      manualStatusCount QuoteStatus.cancelled.value (yearScope house_user year db) ∧
    (get_payment_summary house_user year db).total_amount =
      manualTotalAmount (yearScope house_user year db) ∧
    (get_payment_summary house_user year db).paid_amount =
      manualStatusAmount QuoteStatus.paid.value (yearScope house_user year db) ∧
    (get_payment_summary house_user year db).pending_amount =
      manualStatusAmount QuoteStatus.pending.value (yearScope house_user year db) ∧
    (get_payment_summary house_user year db).overdue_amount =
      manualStatusAmount QuoteStatus.overdue.value (yearScope house_user year db) := by
  have hscope := scope_eq house_user year db
  unfold get_payment_summary
  dsimp only
  rw [hscope]
  exact ⟨rfl, rfl, statusCount_eq _ _, statusCount_eq _ _, statusCount_eq _ _,
    statusCount_eq _ _, totalAmount_eq _, statusAmount_eq _ _,
    statusAmount_eq _ _, statusAmount_eq _ _⟩

/-- Counterexample to C7 as stated: the summary does not return a CANCELLED
amount sum in any form — two stores whose cancelled totals differ (5 versus
7, using the fifth status value partial admitted by the status column for
the balancing quote) produce identical summaries. -/
theorem claim_C7_counterexample :
    get_payment_summary none 2024 dbC7a = get_payment_summary none 2024 dbC7b ∧
    manualStatusAmount QuoteStatus.cancelled.value (yearScope none 2024 dbC7a) ≠
      manualStatusAmount QuoteStatus.cancelled.value (yearScope none 2024 dbC7b) := by
  exact ⟨by rfl, by decide⟩

/-- C8 (amended). The status column's declared domain — the QuoteStatus
enum — has five values, PENDING, PAID, OVERDUE, CANCELLED and PARTIAL, not
four; what does hold is that no engine operation produces a status outside
the claimed four-value set: generation only appends PENDING quotes, the
sweep only writes OVERDUE, and mark_as_paid only persists PAID. -/
theorem claim_C8_engine_status_range :
    (∀ (hu : HouseUser) (pm : Option Nat) (year : Nat) (ba : Option Int)
        (sm em : Nat) (dt : Option String) (now : Date) (db qs db2 : List Quote),
      generate_quotes_for_house_user hu pm year ba sm em dt now db =
          .ok (qs, db2) →
      ∀ q ∈ db2, q ∈ db ∨ q.status = QuoteStatus.pending.value) ∧
    (∀ (today : Date) (db : List Quote) (q : Quote),
      q ∈ (update_overdue_quotes today db).2 →
      q.status = QuoteStatus.overdue.value ∨ ∃ q0 ∈ db, q0.status = q.status) ∧
    (∀ (q : Quote) (pm : Option Nat) (ref : String) (pd : Option Date)
        (now : Date) (q2 : Quote),
      mark_as_paid q pm ref pd now = .ok q2 →
      q2.status = QuoteStatus.paid.value) := by
  refine ⟨?_, ?_, ?_⟩
  · intro hu pm year ba sm em dt now db qs db2 h q hq
    obtain ⟨hdb2, hpend⟩ := generate_ok_spec h
    subst hdb2
    rcases List.mem_append.mp hq with hq2 | hq2
    · exact Or.inl hq2
    · exact Or.inr (hpend q hq2)
  · intro today db q hq
    obtain ⟨q0, hq0, rfl⟩ := List.mem_map.mp hq
    by_cases hp : overduePred today q0 = true
    · rw [if_pos hp]
      exact Or.inl rfl
    · rw [if_neg hp]
      exact Or.inr ⟨q0, hq0, rfl⟩
  · intro q pm ref pd now q2 h
    unfold mark_as_paid at h
    split_ifs at h with hp
    exact clean_ok_status h

/-- Witness for C8: a concrete generation run, sweep run and mark-paid call
each land in the claimed status set. -/
theorem claim_C8_engine_status_range_witness :
    (∀ q ∈ [expectedMonthly huC8 (some 1) 2024 100 none nowEx 3],
      q ∈ ([] : List Quote) ∨ q.status = QuoteStatus.pending.value) ∧
    (∀ q ∈ (update_overdue_quotes { year := 2024, month := 2, day := 1 }
        [quoteC8sweep]).2,
      q.status = QuoteStatus.overdue.value ∨
        ∃ q0 ∈ [quoteC8sweep], q0.status = q.status) ∧
    paidResultC8.status = QuoteStatus.paid.value :=
  ⟨claim_C8_engine_status_range.1 huC8 (some 1) 2024 (some 100) 3 3 none nowEx
      [] [expectedMonthly huC8 (some 1) 2024 100 none nowEx 3]
      [expectedMonthly huC8 (some 1) 2024 100 none nowEx 3] (by rfl),
   claim_C8_engine_status_range.2.1 { year := 2024, month := 2, day := 1 }
      [quoteC8sweep],
   claim_C8_engine_status_range.2.2 pendingQuoteC8 (some 1) "webhook-1" none
      nowEx paidResultC8 (by rfl)⟩

/-- Counterexample to C8 as stated: the QuoteStatus enum of config/enums.py
holds a fifth member PARTIAL whose value lies outside the claimed four-value
set. -/
theorem claim_C8_counterexample :
    QuoteStatus.parcial.value ∈ QuoteStatus.values ∧
    QuoteStatus.parcial.value ∉
      [QuoteStatus.pending.value, QuoteStatus.paid.value,
       QuoteStatus.overdue.value, QuoteStatus.cancelled.value] := by
  exact ⟨by decide, by decide⟩

/-- C9 (amended). When no base_amount override is given and the house
price_base does not resolve to a positive number, the resolved amount is
non-positive and Quote.clean raises the positive-amount validation error on
the first month created, so generate_quotes_for_house_user raises and
creates nothing — the engine does validate defensively, contrary to the
claim's amount-0-quotes-and-no-error contract. -/
theorem claim_C9_nonpositive_amount_raises (hu : HouseUser) (pm : Option Nat)
    (year sm em : Nat) (dt : Option String) (now : Date) (db : List Quote)
    (hType : hu.type_house = HouseUserType.RESIDENT)
    (hPrice : hu.house.price_base ≤ 0)
    (hsm : 1 ≤ sm) (hse : sm ≤ em) (hem : em ≤ 12)
    (hFresh : ∀ q ∈ db, monthlyKey hu.id year sm q = false) :
    generate_quotes_for_house_user hu pm year none sm em dt now db =
      .error "El monto debe ser mayor a cero." := by
  unfold generate_quotes_for_house_user
  dsimp only
  rw [if_neg (by rw [hType]; decide)]
  rw [if_pos hType]
  have hms : monthsRange sm em = sm :: List.range' (sm + 1) (em - sm) := by
    unfold monthsRange
    have hn : em + 1 - sm = (em - sm) + 1 := by omega
    rw [hn, List.range'_succ]
  rw [hms]
  simp only [create_monthly_go]
  rw [filterHead_isSome_false hFresh]
  rw [if_neg Bool.false_ne_true]
  rw [if_neg (by omega)]
  rw [if_neg (by omega)]
  have hamt : (monthlyCandidate hu pm year (resolve_base_amount none hu) dt sm).amount ≤ 0 := by
    show resolve_base_amount none hu ≤ 0
    unfold resolve_base_amount
    dsimp only
    split_ifs with h0
    · omega
    · exact hPrice
  have hcl : clean (monthlyCandidate hu pm year (resolve_base_amount none hu) dt sm) now =
      .error "El monto debe ser mayor a cero." := by
    unfold clean
    rw [if_pos hamt]
  have hoc : objectsCreate (monthlyCandidate hu pm year (resolve_base_amount none hu) dt sm) now db =
      .error "El monto debe ser mayor a cero." := by
    unfold objectsCreate
    rw [hcl]
  rw [hoc]

/-- Witness for C9: a tenant relationship with the price_base column
default 0 and no override raises instead of creating quotes. -/
theorem claim_C9_nonpositive_amount_raises_witness :
    generate_quotes_for_house_user huC9 (some 1) 2024 none 3 6 none nowEx [] =
      .error "El monto debe ser mayor a cero." :=
  claim_C9_nonpositive_amount_raises huC9 (some 1) 2024 3 6 none nowEx []
    rfl (by decide) (by omega) (by omega) (by omega) (by simp)

/-- Counterexample to C9 as stated: with a negative price_base and no
override the engine raises the amount validation error — it does not create
zero-amount quotes and it is not raise-free. -/
theorem claim_C9_counterexample :
    generate_quotes_for_house_user huC9neg (some 1) 2024 none 1 12 none nowEx
        [] = .error "El monto debe ser mayor a cero." ∧
      ∀ qs db2, generate_quotes_for_house_user huC9neg (some 1) 2024 none 1 12
        none nowEx [] ≠ .ok (qs, db2) := by
  refine ⟨by rfl, ?_⟩
  intro qs db2 hcontra
  rw [show generate_quotes_for_house_user huC9neg (some 1) 2024 none 1 12 none
      nowEx [] = .error "El monto debe ser mayor a cero." from rfl] at hcontra
  exact Except.noConfusion hcontra
